import Mathlib

/-!
Verification of the parallel video-queue subsystem of the repository
(`src/queue/manager.py` and `src/queue/processor.py`).

The Python data model and control flow are embedded shallowly:

* `QueueItem`, `VideoStatus`, `VideoQueue` mirror `manager.py`; the
  nondeterministic inputs `uuid.uuid4()` and `datetime.now()` become
  explicit parameters.
* `processSingleVideo` mirrors `QueueProcessor._process_single_video`.
  The five external stage calls (`get_video_info`, `download_video_audio`,
  `transcribe_audio_file`, `generate_summary`, `save_transcription_to_db`)
  are opaque fallible collaborators, so they enter as an oracle of
  `Except String` results (an `error m` is a raised exception with
  message `str(e) = m`).  The three reads of `self.should_stop` inside
  the pipeline enter as the booleans the thread observed.  The result
  records the final item, the returned bool, which stop check (if any)
  triggered the revert, which stage calls were issued, and the sequence
  of item states passed to `_notify_progress`.
* `runParallel` mirrors `QueueProcessor.process_queue_parallel`.  The
  stop flag is set (at most once) at global time `stopTime`; each
  dispatched item carries the times of its three stop reads, its
  completion time and the time of the coordinator loop iteration that
  drains it.  The result records the tally, the writes to
  `queue.is_processing`, and the writes to `queue.active_workers`
  paired with the true number of in-flight pipelines at the same
  instant.
-/

set_option maxHeartbeats 1000000

/-- Status enum of `manager.py` (`VideoStatus`). -/
inductive VideoStatus where
  | pending
  | downloading
  | transcribing
  | summarizing
  | completed
  | failed
deriving DecidableEq, Repr

/-- The `.value` string of each status member. -/
def VideoStatus.value : VideoStatus → String
  | .pending => "pending"
  | .downloading => "downloading"
  | .transcribing => "transcribing"
  | .summarizing => "summarizing"
  | .completed => "completed"
  | .failed => "failed"

/-- The `QueueItem` dataclass of `manager.py`.  `added_at` stands for the
`datetime` timestamp (opaque to all claims, modelled as a `Nat`). -/
structure QueueItem where
  url : String
  id : String
  status : VideoStatus
  progress : Int
  current_step : String
  error : Option String
  title : String
  duration : Int
  added_at : Nat
deriving DecidableEq, Repr

/-- `QueueItem(url=url)`: the dataclass defaults of `manager.py`, with the
generated id and creation timestamp made explicit. -/
def freshItem (url : String) (newId : String) (now : Nat) : QueueItem :=
  { url := url
    id := newId
    status := .pending
    progress := 0
    current_step := "Waiting in queue..."
    error := none
    title := ""
    duration := 0
    added_at := now }

/-- The dictionary built by `QueueItem.to_dict`. -/
structure QueueItemDict where
  id : String
  url : String
  status : String
  progress : Int
  current_step : String
  error : Option String
  title : String
  duration : Int
  added_at : Nat
deriving DecidableEq, Repr

/-- `QueueItem.to_dict` of `manager.py`. -/
def QueueItem.toDict (it : QueueItem) : QueueItemDict :=
  { id := it.id
    url := it.url
    status := it.status.value
    progress := it.progress
    current_step := it.current_step
    error := it.error
    title := it.title
    duration := it.duration
    added_at := it.added_at }

/-- The `VideoQueue` container of `manager.py`. -/
structure VideoQueue where
  items : List QueueItem
  is_processing : Bool
  active_workers : Nat
deriving Repr

/-- `VideoQueue.__init__`. -/
def VideoQueue.empty : VideoQueue :=
  { items := [], is_processing := false, active_workers := 0 }

/-- `VideoQueue.add`: construct the item, append it, return it. -/
def VideoQueue.add (q : VideoQueue) (url : String) (newId : String) (now : Nat) :
    VideoQueue × QueueItem :=
  let it := freshItem url newId now
  ({ q with items := q.items ++ [it] }, it)

/-- `VideoQueue.get_pending_items`. -/
def VideoQueue.pendingItems (q : VideoQueue) : List QueueItem :=
  q.items.filter (fun it => it.status = .pending)

/-- The `{title, duration}` part of the dict returned by `get_video_info`
(the only keys `_process_single_video` reads). -/
structure VideoInfo where
  title : String
  duration : Int
deriving DecidableEq, Repr

/-- The outcomes of the five external stage calls for one item: `.ok` is a
normal return, `.error m` a raised exception with message `m`. -/
structure StageResults where
  info : Except String VideoInfo
  download : Except String String
  transcription : Except String String
  summary : Except String String
  saveDb : Except String Unit

/-- Which of the five external stage calls were issued for the item. -/
structure StageCalls where
  info : Bool
  download : Bool
  transcribe : Bool
  summarize : Bool
  save : Bool
deriving DecidableEq, Repr

/-- Result of `_process_single_video` for one item: the item's final state,
the returned bool, the index (0/1/2) of the stop check that reverted the
item (if any), the stage calls issued, and every state passed to
`_notify_progress`, in order. -/
structure PResult where
  item : QueueItem
  success : Bool
  revertedAt : Option Nat
  calls : StageCalls
  trace : List QueueItem

/-- `_update_progress`: set `progress` and `current_step` (the subsequent
`_notify_progress` observes exactly this state). -/
def notifUpd (it : QueueItem) (p : Int) (s : String) : QueueItem :=
  { it with progress := p, current_step := s }

/-- Item state after STAGE 0 of `_process_single_video` (metadata fetch;
failure is caught and ignored). -/
def stage0run (o : StageResults) (it : QueueItem) : QueueItem :=
  let it1 := notifUpd it 1 "Fetching video info..."
  match o.info with
  | .ok vi =>
      notifUpd { it1 with title := vi.title, duration := vi.duration } 3
        ("Found: " ++ vi.title)
  | .error _ => it1

/-- The notified states of STAGE 0. -/
def stage0trace (o : StageResults) (it : QueueItem) : List QueueItem :=
  let it1 := notifUpd it 1 "Fetching video info..."
  match o.info with
  | .ok vi =>
      [it1,
       notifUpd { it1 with title := vi.title, duration := vi.duration } 3
         ("Found: " ++ vi.title)]
  | .error _ => [it1]

/-- Item state at `_update_progress(item, 5, "Starting download...")`,
after `item.status = DOWNLOADING`. -/
def startDL (it : QueueItem) : QueueItem :=
  notifUpd { it with status := .downloading } 5 "Starting download..."

/-- Item state at `_update_progress(item, 25, "Download complete")`, after
the fallback `if not item.title: item.title = filename`. -/
def doneDL (filename : String) (it : QueueItem) : QueueItem :=
  notifUpd (if it.title = "" then { it with title := filename } else it) 25
    "Download complete"

/-- Item state at `_update_progress(item, 30, "Starting transcription...")`. -/
def startTR (it : QueueItem) : QueueItem :=
  notifUpd { it with status := .transcribing } 30 "Starting transcription..."

/-- Item state at `_update_progress(item, 75, "Transcription complete")`. -/
def doneTR (it : QueueItem) : QueueItem :=
  notifUpd it 75 "Transcription complete"

/-- Item state at `_update_progress(item, 80, "Generating summary...")`. -/
def startSUM (it : QueueItem) : QueueItem :=
  notifUpd { it with status := .summarizing } 80 "Generating summary..."

/-- Item state at `_update_progress(item, 95, "Summary complete")`. -/
def doneSUM (it : QueueItem) : QueueItem :=
  notifUpd it 95 "Summary complete"

/-- Item state at `_update_progress(item, 98, "Saving to database...")`. -/
def startSave (it : QueueItem) : QueueItem :=
  notifUpd it 98 "Saving to database..."

/-- The `except` handler of `_process_single_video`: mark failed with the
exception's message. -/
def failWith (m : String) (it : QueueItem) : QueueItem :=
  { it with
      status := .failed
      error := some m
      current_step := "Failed: " ++ m.take 50 }

/-- The success epilogue of `_process_single_video`. -/
def completeItem (it : QueueItem) : QueueItem :=
  { it with status := .completed, progress := 100, current_step := "Complete!" }

/-- `QueueProcessor._process_single_video`, as a function of the stage-call
outcomes `o`, the three observed values `s1 s2 s3` of `self.should_stop`
(read after stage 0, after the download and after the transcription), and
the item's state on entry. -/
def processSingleVideo (o : StageResults) (s1 s2 s3 : Bool) (it0 : QueueItem) :
    PResult :=
  let a := stage0run o it0
  let tr0 := stage0trace o it0
  if s1 then
    { item := { a with status := .pending }
      success := false
      revertedAt := some 0
      calls := ⟨true, false, false, false, false⟩
      trace := tr0 }
  else
    let b1 := startDL a
    match o.download with
    | .error m =>
        let fi := failWith m b1
        { item := fi
          success := false
          revertedAt := none
          calls := ⟨true, true, false, false, false⟩
          trace := tr0 ++ [b1, fi] }
    | .ok filename =>
        let b3 := doneDL filename b1
        if s2 then
          { item := { b3 with status := .pending }
            success := false
            revertedAt := some 1
            calls := ⟨true, true, false, false, false⟩
            trace := tr0 ++ [b1, b3] }
        else
          let c1 := startTR b3
          match o.transcription with
          | .error m =>
              let fi := failWith m c1
              { item := fi
                success := false
                revertedAt := none
                calls := ⟨true, true, true, false, false⟩
                trace := tr0 ++ [b1, b3, c1, fi] }
          | .ok _ =>
              let c2 := doneTR c1
              if s3 then
                { item := { c2 with status := .pending }
                  success := false
                  revertedAt := some 2
                  calls := ⟨true, true, true, false, false⟩
                  trace := tr0 ++ [b1, b3, c1, c2] }
              else
                let d1 := startSUM c2
                match o.summary with
                | .error m =>
                    let fi := failWith m d1
                    { item := fi
                      success := false
                      revertedAt := none
                      calls := ⟨true, true, true, true, false⟩
                      trace := tr0 ++ [b1, b3, c1, c2, d1, fi] }
                | .ok _ =>
                    let d2 := doneSUM d1
                    let e1 := startSave d2
                    match o.saveDb with
                    | .error m =>
                        let fi := failWith m e1
                        { item := fi
                          success := false
                          revertedAt := none
                          calls := ⟨true, true, true, true, true⟩
                          trace := tr0 ++ [b1, b3, c1, c2, d1, d2, e1, fi] }
                    | .ok _ =>
                        let fin := completeItem e1
                        { item := fin
                          success := true
                          revertedAt := none
                          calls := ⟨true, true, true, true, true⟩
                          trace := tr0 ++ [b1, b3, c1, c2, d1, d2, e1, fin] }

/-- The tally dict returned by `process_queue_parallel`. -/
structure Tally where
  completed : Nat
  failed : Nat
  skipped : Nat
  total : Nat
deriving DecidableEq, Repr

/-- One observation instant of `queue.active_workers`: `aw` is the value
the field holds at that instant, `flight` the true number of in-flight
(dispatched but unfinished) pipelines then, and `upd` marks instants at
which the coordinator writes the field (line 106, line 136 or line 140 of
`processor.py`); `upd = false` instants are pipeline completions, where
the field still holds its previous value. -/
structure AwEntry where
  upd : Bool
  aw : Nat
  flight : Nat
deriving DecidableEq, Repr

/-- One dispatched item of a run: the item, its stage-call outcomes, the
global times `t1 < t2 < t3` of its three stop-flag reads, its completion
time `tFin`, and the time `tDrain` of the coordinator loop iteration that
drains its future. -/
structure ItemExec where
  it : QueueItem
  orc : StageResults
  t1 : Nat
  t2 : Nat
  t3 : Nat
  tFin : Nat
  tDrain : Nat

/-- Timing sanity of one dispatch: the three stop reads precede the
pipeline's completion, which precedes the drain iteration handling it. -/
def execWF (e : ItemExec) : Prop :=
  e.t1 < e.t2 ∧ e.t2 < e.t3 ∧ e.t3 < e.tFin ∧ e.tFin ≤ e.tDrain

instance : DecidablePred execWF := fun e => by unfold execWF; infer_instance

/-- Value of `self.should_stop` at global time `t` when `stop()` runs at
time `stopTime` (`none`: never). The flag is only ever set, never cleared,
during a run. -/
def stopped (stopTime : Option Nat) (t : Nat) : Bool :=
  match stopTime with
  | none => false
  | some s => decide (s ≤ t)

/-- The pipeline execution of one dispatched item: `_process_single_video`
with the stop flag sampled at the item's three read times. -/
def runItem (stopTime : Option Nat) (e : ItemExec) : PResult :=
  processSingleVideo e.orc (stopped stopTime e.t1) (stopped stopTime e.t2)
    (stopped stopTime e.t3) e.it

/-- The futures drained and tallied by the `as_completed` loop, in
completion order: the loop breaks at the first iteration whose
`self.should_stop` read is true, before tallying that future. -/
def drainTallied (stopTime : Option Nat) : List ItemExec → List ItemExec
  | [] => []
  | e :: r =>
      if stopped stopTime e.tDrain then []
      else e :: drainTallied stopTime r

/-- Number of pipelines (futures) finished at time `t`. -/
def finishedBy (all : List ItemExec) (t : Nat) : Nat :=
  (all.filter (fun e => decide (e.tFin ≤ t))).length

/-- `len([f for f in future_to_item if not f.done()])` evaluated at time
`t`: the coordinator's rescan of unfinished futures. -/
def notDoneAt (all : List ItemExec) (t : Nat) : Nat :=
  (all.filter (fun e => !decide (e.tFin ≤ t))).length

/-- The `active_workers` observations produced by the `as_completed` loop.
For each drained future two instants are recorded: the instant the
pipeline finishes (`upd = false`: no write, the carried value `aw` is
stale) and, unless the loop breaks first, the write at line 136
(`upd = true`: `active_workers` is recomputed by scanning undone
futures). -/
def awEvents (stopTime : Option Nat) (all : List ItemExec) (n : Nat) :
    Nat → List ItemExec → List AwEntry
  | _, [] => []
  | aw, e :: r =>
      let fe : AwEntry := ⟨false, aw, n - finishedBy all e.tFin⟩
      if stopped stopTime e.tDrain then [fe]
      else
        let aw2 := notDoneAt all e.tDrain
        fe :: ⟨true, aw2, n - finishedBy all e.tDrain⟩ :: awEvents stopTime all n aw2 r

/-- Result of one `process_queue_parallel` call: the returned tally, the
sequence of writes to `queue.is_processing`, the `active_workers`
observations (first entry: the write at line 106 right after submission,
before any pipeline finishes; last entry: the write of 0 at line 140 after
the executor has been joined), and the drained-and-tallied futures. -/
structure RunResult where
  tally : Tally
  isProcTrace : List Bool
  awTrace : List AwEntry
  tallied : List ItemExec

/-- `QueueProcessor.process_queue_parallel`.  `execs` is the snapshot of
pending items taken at run start, ordered by pipeline completion (the
order `as_completed` yields their futures); `stopTime` is the time at
which `stop()` sets the flag, if ever. -/
def runParallel (stopTime : Option Nat) (execs : List ItemExec) : RunResult :=
  match execs with
  | [] =>
      { tally := ⟨0, 0, 0, 0⟩
        isProcTrace := [true, false]
        awTrace := []
        tallied := [] }
  | e :: r =>
      let all := e :: r
      let n := all.length
      let tl := drainTallied stopTime all
      { tally :=
          ⟨(tl.filter (fun x => (runItem stopTime x).success)).length,
           (tl.filter (fun x => !(runItem stopTime x).success)).length,
           0, n⟩
        isProcTrace := [true, false]
        awTrace :=
          ⟨true, n, n - finishedBy all 0⟩ ::
            (awEvents stopTime all n n all ++ [⟨true, 0, 0⟩])
        tallied := tl }

/-! ### Invariants of the data model -/

/-- §3 invariant: `error` is set if and only if `status` is `Failed`. -/
def errInv (x : QueueItem) : Prop :=
  x.error ≠ none ↔ x.status = .failed

/-- §3 invariant: `progress = 100` if and only if `status` is `Completed`. -/
def progInv (x : QueueItem) : Prop :=
  x.progress = 100 ↔ x.status = .completed

/-- A non-terminal pipeline state: neither completed nor failed, error
unchanged, progress at most 98. -/
def live (e0 : Option String) (x : QueueItem) : Prop :=
  x.status ≠ .completed ∧ x.status ≠ .failed ∧ x.error = e0 ∧ x.progress ≤ 98

/-- Classification of every item state produced by the pipeline when the
entry state carries error `e0`. -/
def stateOK (e0 : Option String) (x : QueueItem) : Prop :=
  (x.status = .completed ∧ x.progress = 100 ∧ x.error = e0)
  ∨ (x.status = .failed ∧ x.error ≠ none ∧ x.progress ≤ 98)
  ∨ live e0 x

theorem live_stateOK {e0 : Option String} {x : QueueItem} (h : live e0 x) :
    stateOK e0 x := Or.inr (Or.inr h)

/-! ### Field projections of the pipeline states -/

@[simp] theorem notifUpd_status (it : QueueItem) (p : Int) (s : String) :
    (notifUpd it p s).status = it.status := rfl
@[simp] theorem notifUpd_error (it : QueueItem) (p : Int) (s : String) :
    (notifUpd it p s).error = it.error := rfl
@[simp] theorem notifUpd_progress (it : QueueItem) (p : Int) (s : String) :
    (notifUpd it p s).progress = p := rfl

@[simp] theorem stage0run_error (o : StageResults) (it : QueueItem) :
    (stage0run o it).error = it.error := by
  cases h : o.info <;> simp [stage0run, h]

@[simp] theorem stage0run_status (o : StageResults) (it : QueueItem) :
    (stage0run o it).status = it.status := by
  cases h : o.info <;> simp [stage0run, h]

theorem stage0run_progress_le (o : StageResults) (it : QueueItem) :
    (stage0run o it).progress ≤ 98 := by
  cases h : o.info <;> simp [stage0run, h]

@[simp] theorem startDL_error (it : QueueItem) : (startDL it).error = it.error := rfl
@[simp] theorem startDL_status (it : QueueItem) :
    (startDL it).status = .downloading := rfl
@[simp] theorem startDL_progress (it : QueueItem) : (startDL it).progress = 5 := rfl

@[simp] theorem doneDL_error (f : String) (it : QueueItem) :
    (doneDL f it).error = it.error := by
  unfold doneDL; split <;> rfl
@[simp] theorem doneDL_status (f : String) (it : QueueItem) :
    (doneDL f it).status = it.status := by
  unfold doneDL; split <;> rfl
@[simp] theorem doneDL_progress (f : String) (it : QueueItem) :
    (doneDL f it).progress = 25 := by
  unfold doneDL; split <;> rfl

@[simp] theorem startTR_error (it : QueueItem) : (startTR it).error = it.error := rfl
@[simp] theorem startTR_status (it : QueueItem) :
    (startTR it).status = .transcribing := rfl
@[simp] theorem startTR_progress (it : QueueItem) : (startTR it).progress = 30 := rfl

@[simp] theorem doneTR_error (it : QueueItem) : (doneTR it).error = it.error := rfl
@[simp] theorem doneTR_status (it : QueueItem) : (doneTR it).status = it.status := rfl
@[simp] theorem doneTR_progress (it : QueueItem) : (doneTR it).progress = 75 := rfl

@[simp] theorem startSUM_error (it : QueueItem) : (startSUM it).error = it.error := rfl
@[simp] theorem startSUM_status (it : QueueItem) :
    (startSUM it).status = .summarizing := rfl
@[simp] theorem startSUM_progress (it : QueueItem) : (startSUM it).progress = 80 := rfl

@[simp] theorem doneSUM_error (it : QueueItem) : (doneSUM it).error = it.error := rfl
@[simp] theorem doneSUM_status (it : QueueItem) : (doneSUM it).status = it.status := rfl
@[simp] theorem doneSUM_progress (it : QueueItem) : (doneSUM it).progress = 95 := rfl

@[simp] theorem startSave_error (it : QueueItem) : (startSave it).error = it.error := rfl
@[simp] theorem startSave_status (it : QueueItem) :
    (startSave it).status = it.status := rfl
@[simp] theorem startSave_progress (it : QueueItem) : (startSave it).progress = 98 := rfl

@[simp] theorem failWith_error (m : String) (it : QueueItem) :
    (failWith m it).error = some m := rfl
@[simp] theorem failWith_status (m : String) (it : QueueItem) :
    (failWith m it).status = .failed := rfl
@[simp] theorem failWith_progress (m : String) (it : QueueItem) :
    (failWith m it).progress = it.progress := rfl

@[simp] theorem completeItem_error (it : QueueItem) :
    (completeItem it).error = it.error := rfl
@[simp] theorem completeItem_status (it : QueueItem) :
    (completeItem it).status = .completed := rfl
@[simp] theorem completeItem_progress (it : QueueItem) :
    (completeItem it).progress = 100 := rfl

theorem stage0trace_mem (o : StageResults) (it : QueueItem) :
    ∀ x ∈ stage0trace o it,
      x.error = it.error ∧ x.status = it.status ∧ x.progress ≤ 98 := by
  intro x hx
  cases h : o.info <;> simp [stage0trace, h] at hx
  · subst hx; simp [notifUpd]
  · rcases hx with rfl | rfl <;> simp [notifUpd]

/-- Every state `_process_single_video` drives the item through — each
notified state and the final state — is completed-with-100, failed-with-
error, or a live state with error unchanged and progress at most 98. -/
theorem pipelineStates (o : StageResults) (s1 s2 s3 : Bool) (it0 : QueueItem)
    (hst : it0.status = VideoStatus.pending) :
    ∀ x, (x ∈ (processSingleVideo o s1 s2 s3 it0).trace ∨
          x = (processSingleVideo o s1 s2 s3 it0).item) → stateOK it0.error x := by
  have hs0 : ∀ x ∈ stage0trace o it0, live it0.error x := by
    intro x hx
    obtain ⟨he, hs, hp⟩ := stage0trace_mem o it0 x hx
    refine ⟨?_, ?_, he, hp⟩ <;> rw [hs, hst] <;> decide
  have okFail : ∀ (m : String) (y : QueueItem), y.progress ≤ 98 →
      stateOK it0.error (failWith m y) := by
    intro m y hy
    exact Or.inr (Or.inl ⟨by simp, by simp, by simpa using hy⟩)
  have okComp : ∀ y : QueueItem, y.error = it0.error →
      stateOK it0.error (completeItem y) := by
    intro y hy
    exact Or.inl ⟨by simp, by simp, by simpa using hy⟩
  have okRev : ∀ y : QueueItem, live it0.error y →
      stateOK it0.error { y with status := VideoStatus.pending } := by
    intro y hy
    exact live_stateOK ⟨by simp, by simp, by simpa using hy.2.2.1,
      by simpa using hy.2.2.2⟩
  have stepDL : ∀ y : QueueItem, y.error = it0.error →
      live it0.error (startDL y) := by
    intro y hy
    exact ⟨by simp, by simp, by simpa using hy, by rw [startDL_progress]; decide⟩
  have stepDDL : ∀ (f : String) (y : QueueItem), live it0.error y →
      live it0.error (doneDL f y) := by
    intro f y hy
    exact ⟨by simpa using hy.1, by simpa using hy.2.1, by simpa using hy.2.2.1,
      by rw [doneDL_progress]; decide⟩
  have stepTR : ∀ y : QueueItem, y.error = it0.error →
      live it0.error (startTR y) := by
    intro y hy
    exact ⟨by simp, by simp, by simpa using hy, by rw [startTR_progress]; decide⟩
  have stepDTR : ∀ y : QueueItem, live it0.error y →
      live it0.error (doneTR y) := by
    intro y hy
    exact ⟨by simpa using hy.1, by simpa using hy.2.1, by simpa using hy.2.2.1,
      by rw [doneTR_progress]; decide⟩
  have stepSUM : ∀ y : QueueItem, y.error = it0.error →
      live it0.error (startSUM y) := by
    intro y hy
    exact ⟨by simp, by simp, by simpa using hy, by rw [startSUM_progress]; decide⟩
  have stepDSUM : ∀ y : QueueItem, live it0.error y →
      live it0.error (doneSUM y) := by
    intro y hy
    exact ⟨by simpa using hy.1, by simpa using hy.2.1, by simpa using hy.2.2.1,
      by rw [doneSUM_progress]; decide⟩
  have stepSave : ∀ y : QueueItem, live it0.error y →
      live it0.error (startSave y) := by
    intro y hy
    exact ⟨by simpa using hy.1, by simpa using hy.2.1, by simpa using hy.2.2.1,
      by rw [startSave_progress]⟩
  have la : live it0.error (stage0run o it0) :=
    ⟨by simp [hst], by simp [hst], by simp, stage0run_progress_le o it0⟩
  have lb1 : live it0.error (startDL (stage0run o it0)) := stepDL _ la.2.2.1
  have lb3 : ∀ f, live it0.error (doneDL f (startDL (stage0run o it0))) :=
    fun f => stepDDL f _ lb1
  have lc1 : ∀ f, live it0.error (startTR (doneDL f (startDL (stage0run o it0)))) :=
    fun f => stepTR _ (lb3 f).2.2.1
  have lc2 : ∀ f,
      live it0.error (doneTR (startTR (doneDL f (startDL (stage0run o it0))))) :=
    fun f => stepDTR _ (lc1 f)
  have ld1 : ∀ f, live it0.error
      (startSUM (doneTR (startTR (doneDL f (startDL (stage0run o it0)))))) :=
    fun f => stepSUM _ (lc2 f).2.2.1
  have ld2 : ∀ f, live it0.error
      (doneSUM (startSUM (doneTR (startTR (doneDL f (startDL (stage0run o it0))))))) :=
    fun f => stepDSUM _ (ld1 f)
  have le1 : ∀ f, live it0.error
      (startSave (doneSUM (startSUM (doneTR (startTR
        (doneDL f (startDL (stage0run o it0)))))))) :=
    fun f => stepSave _ (ld2 f)
  intro x hx
  cases s1 with
  | true =>
      simp only [processSingleVideo, if_true] at hx
      rcases hx with hx | rfl
      · exact live_stateOK (hs0 x hx)
      · exact okRev _ la
  | false =>
      cases hd : o.download with
      | error dm =>
          simp only [processSingleVideo, hd, Bool.false_eq_true, if_false,
            List.mem_append, List.mem_cons, List.not_mem_nil, or_false] at hx
          rcases hx with (hx | rfl | rfl) | rfl
          · exact live_stateOK (hs0 x hx)
          · exact live_stateOK lb1
          · exact okFail dm _ lb1.2.2.2
          · exact okFail dm _ lb1.2.2.2
      | ok df =>
          cases s2 with
          | true =>
              simp only [processSingleVideo, hd, Bool.false_eq_true, if_false,
                if_true, List.mem_append, List.mem_cons, List.not_mem_nil,
                or_false] at hx
              rcases hx with (hx | rfl | rfl) | rfl
              · exact live_stateOK (hs0 x hx)
              · exact live_stateOK lb1
              · exact live_stateOK (lb3 df)
              · exact okRev _ (lb3 df)
          | false =>
              cases ht : o.transcription with
              | error tm =>
                  simp only [processSingleVideo, hd, ht, Bool.false_eq_true,
                    if_false, List.mem_append, List.mem_cons, List.not_mem_nil,
                    or_false] at hx
                  rcases hx with (hx | rfl | rfl | rfl | rfl) | rfl
                  · exact live_stateOK (hs0 x hx)
                  · exact live_stateOK lb1
                  · exact live_stateOK (lb3 df)
                  · exact live_stateOK (lc1 df)
                  · exact okFail tm _ (lc1 df).2.2.2
                  · exact okFail tm _ (lc1 df).2.2.2
              | ok tt =>
                  cases s3 with
                  | true =>
                      simp only [processSingleVideo, hd, ht, Bool.false_eq_true,
                        if_false, if_true, List.mem_append, List.mem_cons,
                        List.not_mem_nil, or_false] at hx
                      rcases hx with (hx | rfl | rfl | rfl | rfl) | rfl
                      · exact live_stateOK (hs0 x hx)
                      · exact live_stateOK lb1
                      · exact live_stateOK (lb3 df)
                      · exact live_stateOK (lc1 df)
                      · exact live_stateOK (lc2 df)
                      · exact okRev _ (lc2 df)
                  | false =>
                      cases hm : o.summary with
                      | error sm =>
                          simp only [processSingleVideo, hd, ht, hm,
                            Bool.false_eq_true, if_false, List.mem_append,
                            List.mem_cons, List.not_mem_nil, or_false] at hx
                          rcases hx with (hx | rfl | rfl | rfl | rfl | rfl | rfl) | rfl
                          · exact live_stateOK (hs0 x hx)
                          · exact live_stateOK lb1
                          · exact live_stateOK (lb3 df)
                          · exact live_stateOK (lc1 df)
                          · exact live_stateOK (lc2 df)
                          · exact live_stateOK (ld1 df)
                          · exact okFail sm _ (ld1 df).2.2.2
                          · exact okFail sm _ (ld1 df).2.2.2
                      | ok su =>
                          cases hp : o.saveDb with
                          | error pm =>
                              simp only [processSingleVideo, hd, ht, hm, hp,
                                Bool.false_eq_true, if_false, List.mem_append,
                                List.mem_cons, List.not_mem_nil, or_false] at hx
                              rcases hx with
                                (hx | rfl | rfl | rfl | rfl | rfl | rfl | rfl | rfl) | rfl
                              · exact live_stateOK (hs0 x hx)
                              · exact live_stateOK lb1
                              · exact live_stateOK (lb3 df)
                              · exact live_stateOK (lc1 df)
                              · exact live_stateOK (lc2 df)
                              · exact live_stateOK (ld1 df)
                              · exact live_stateOK (ld2 df)
                              · exact live_stateOK (le1 df)
                              · exact okFail pm _ (le1 df).2.2.2
                              · exact okFail pm _ (le1 df).2.2.2
                          | ok pu =>
                              simp only [processSingleVideo, hd, ht, hm, hp,
                                Bool.false_eq_true, if_false, List.mem_append,
                                List.mem_cons, List.not_mem_nil, or_false] at hx
                              rcases hx with
                                (hx | rfl | rfl | rfl | rfl | rfl | rfl | rfl | rfl) | rfl
                              · exact live_stateOK (hs0 x hx)
                              · exact live_stateOK lb1
                              · exact live_stateOK (lb3 df)
                              · exact live_stateOK (lc1 df)
                              · exact live_stateOK (lc2 df)
                              · exact live_stateOK (ld1 df)
                              · exact live_stateOK (ld2 df)
                              · exact live_stateOK (le1 df)
                              · exact okComp _ (le1 df).2.2.1
                              · exact okComp _ (le1 df).2.2.1

/-! ### Properties of the stop flag and the drain loop -/

/-- The stop flag is only ever set during a run: once observed true it
stays true at all later times. -/
theorem stopped_mono {st : Option Nat} {a b : Nat} (h : stopped st a = true)
    (hab : a ≤ b) : stopped st b = true := by
  cases st with
  | none => simp [stopped] at h
  | some s =>
      simp only [stopped, decide_eq_true_eq] at h ⊢
      omega

theorem filter_length_split (l : List α) (p : α → Bool) :
    (l.filter p).length + (l.filter (fun a => !p a)).length = l.length := by
  induction l with
  | nil => rfl
  | cons a t ih => cases h : p a <;> simp [h] <;> omega

/-- If `stop()` never runs, the drain loop drains and tallies every
dispatched future. -/
theorem drainTallied_none (l : List ItemExec) : drainTallied none l = l := by
  induction l with
  | nil => rfl
  | cons e r ih => simp [drainTallied, stopped, ih]

theorem mem_drainTallied {st : Option Nat} {x : ItemExec} :
    ∀ {l : List ItemExec}, x ∈ drainTallied st l →
      x ∈ l ∧ stopped st x.tDrain = false := by
  intro l
  induction l with
  | nil => simp [drainTallied]
  | cons e r ih =>
      simp only [drainTallied]
      split
      · intro h; simp at h
      · intro h
        rcases List.mem_cons.mp h with rfl | hm
        · refine ⟨List.mem_cons_self _ _, ?_⟩
          rename_i hcond
          simpa using hcond
        · obtain ⟨h1, h2⟩ := ih hm
          exact ⟨List.mem_cons_of_mem _ h1, h2⟩

theorem drainTallied_length_le (st : Option Nat) (l : List ItemExec) :
    (drainTallied st l).length ≤ l.length := by
  induction l with
  | nil => simp [drainTallied]
  | cons e r ih =>
      simp only [drainTallied]
      split
      · simp
      · simpa using Nat.succ_le_succ ih

/-- A revert can only be triggered by one of the three stop reads
observing `true`. -/
theorem revertedAt_stop (o : StageResults) (s1 s2 s3 : Bool) (it : QueueItem)
    (h : (processSingleVideo o s1 s2 s3 it).revertedAt.isSome = true) :
    s1 = true ∨ s2 = true ∨ s3 = true := by
  cases s1 <;> cases hd : o.download <;> cases s2 <;>
    cases ht : o.transcription <;> cases s3 <;> cases hm : o.summary <;>
      cases hp : o.saveDb <;>
        simp_all [processSingleVideo, hd, ht, hm, hp]

/-- A reverted item's final status is `Pending`. -/
theorem reverted_pending (o : StageResults) (s1 s2 s3 : Bool) (it : QueueItem)
    (h : (processSingleVideo o s1 s2 s3 it).revertedAt.isSome = true) :
    (processSingleVideo o s1 s2 s3 it).item.status = VideoStatus.pending := by
  cases s1 <;> cases hd : o.download <;> cases s2 <;>
    cases ht : o.transcription <;> cases s3 <;> cases hm : o.summary <;>
      cases hp : o.saveDb <;>
        simp_all [processSingleVideo, hd, ht, hm, hp]

/-- A reverted item is returned as "not completed". -/
theorem reverted_not_success (o : StageResults) (s1 s2 s3 : Bool) (it : QueueItem)
    (h : (processSingleVideo o s1 s2 s3 it).revertedAt.isSome = true) :
    (processSingleVideo o s1 s2 s3 it).success = false := by
  cases s1 <;> cases hd : o.download <;> cases s2 <;>
    cases ht : o.transcription <;> cases s3 <;> cases hm : o.summary <;>
      cases hp : o.saveDb <;>
        simp_all [processSingleVideo, hd, ht, hm, hp]

/-- If an item's pipeline observed the stop flag, the stop flag is still
set at the loop iteration that would drain its future, so the coordinator
breaks no later than that iteration. -/
theorem runItem_reverted_stop (st : Option Nat) (e : ItemExec) (hwf : execWF e)
    (h : (runItem st e).revertedAt.isSome = true) :
    stopped st e.tDrain = true := by
  obtain ⟨h1, h2, h3, h4⟩ := hwf
  rcases revertedAt_stop e.orc (stopped st e.t1) (stopped st e.t2)
      (stopped st e.t3) e.it (by simpa [runItem] using h) with hs | hs | hs
  · exact stopped_mono hs (by omega)
  · exact stopped_mono hs (by omega)
  · exact stopped_mono hs (by omega)

/-- A pipeline that observed the stop flag is never drained and tallied. -/
theorem reverted_not_tallied (st : Option Nat) (l : List ItemExec)
    (e : ItemExec) (hwf : execWF e)
    (hrev : (runItem st e).revertedAt.isSome = true) :
    e ∉ drainTallied st l := by
  intro hmem
  obtain ⟨-, hfalse⟩ := mem_drainTallied hmem
  rw [runItem_reverted_stop st e hwf hrev] at hfalse
  exact absurd hfalse (by decide)

/-! ### Properties of the worker-count bookkeeping -/

theorem notDoneAt_eq (all : List ItemExec) (t : Nat) :
    notDoneAt all t = all.length - finishedBy all t := by
  have h := filter_length_split all (fun e => decide (e.tFin ≤ t))
  unfold notDoneAt finishedBy
  omega

theorem finishedBy_le (all : List ItemExec) (t : Nat) :
    finishedBy all t ≤ all.length := by
  unfold finishedBy
  exact List.length_filter_le _ _

/-- Before any pipeline has run, no future is finished. -/
theorem finishedBy_zero (all : List ItemExec) (hwf : ∀ e ∈ all, execWF e) :
    finishedBy all 0 = 0 := by
  unfold finishedBy
  rw [List.length_eq_zero, List.filter_eq_nil_iff]
  intro e he
  have := hwf e he
  unfold execWF at this
  simp only [decide_eq_true_eq]
  omega

/-- Every recorded `active_workers` observation satisfies: at the instants
the coordinator writes the field its value equals the number of unfinished
futures at that instant, and both the value and the in-flight count are
bounded by the snapshot size. -/
theorem awEvents_ok (st : Option Nat) (all : List ItemExec) (n : Nat)
    (hn : n = all.length) :
    ∀ (l : List ItemExec) (aw : Nat), aw ≤ n →
      ∀ en ∈ awEvents st all n aw l,
        (en.upd = true → en.aw = en.flight) ∧ en.aw ≤ n ∧ en.flight ≤ n := by
  intro l
  induction l with
  | nil => intro aw _ en hen; simp [awEvents] at hen
  | cons e r ih =>
      intro aw haw en hen
      simp only [awEvents] at hen
      split at hen
      · simp only [List.mem_singleton] at hen
        subst hen
        exact ⟨by intro h; simp at h, haw, Nat.sub_le _ _⟩
      · rcases List.mem_cons.mp hen with rfl | hen2
        · exact ⟨by intro h; simp at h, haw, Nat.sub_le _ _⟩
        · rcases List.mem_cons.mp hen2 with rfl | hen3
          · refine ⟨fun _ => ?_, ?_, Nat.sub_le _ _⟩
            · rw [notDoneAt_eq, hn]
            · rw [notDoneAt_eq, hn]
              exact Nat.sub_le _ _
          · exact ih (notDoneAt all e.tDrain)
              (by rw [notDoneAt_eq, hn]; exact Nat.sub_le _ _) en hen3

theorem stateOK_errInv {x : QueueItem} (h : stateOK none x) : errInv x := by
  unfold errInv
  rcases h with ⟨h1, h2, h3⟩ | ⟨h1, h2, h3⟩ | ⟨h1, h2, h3, h4⟩
  · rw [h3, h1]; simp
  · rw [h1]; simp [h2]
  · rw [h3]; simp; exact h2

theorem stateOK_progInv {e0 : Option String} {x : QueueItem}
    (h : stateOK e0 x) : progInv x := by
  unfold progInv
  rcases h with ⟨h1, h2, h3⟩ | ⟨h1, h2, h3⟩ | ⟨h1, h2, h3, h4⟩
  · rw [h1, h2]; simp
  · rw [h1]
    constructor
    · intro hp; omega
    · intro hc; cases hc
  · constructor
    · intro hp; omega
    · intro hc; exact absurd hc h1

/-- A pending item satisfying the error invariant has no error recorded. -/
theorem pending_error_none {it : QueueItem} (hinv : errInv it)
    (hst : it.status = VideoStatus.pending) : it.error = none := by
  by_cases h : it.error = none
  · exact h
  · have h2 := hinv.mp h
    rw [hst] at h2
    cases h2

/-! ### Concrete inputs used by witnesses and counterexamples -/

/-- A metadata-fetch result used in concrete evaluations. -/
def vinfo0 : VideoInfo := ⟨"Title", 10⟩

/-- Stage outcomes where every external call succeeds. -/
def oracleOK : StageResults :=
  ⟨.ok vinfo0, .ok "clip.mp3", .ok "words", .ok "gist", .ok ()⟩

/-! ### Claims -/

/-- C6 (confirmed): for every `QueueItem` at every point reachable through
the public operations, `error` is non-null iff the status is `Failed`.
Freshly added items satisfy the invariant, and the per-item pipeline — the
only code that mutates items — keeps it at every notified state and at its
final state, for any item that is pending (as every snapshotted item is)
and satisfies the invariant on entry. -/
theorem claim6_theorem :
    (∀ (url newId : String) (now : Nat), errInv (freshItem url newId now)) ∧
    (∀ (o : StageResults) (s1 s2 s3 : Bool) (it0 : QueueItem),
      errInv it0 → it0.status = VideoStatus.pending →
      (∀ x ∈ (processSingleVideo o s1 s2 s3 it0).trace, errInv x) ∧
      errInv (processSingleVideo o s1 s2 s3 it0).item) := by
  constructor
  · intro url newId now
    unfold errInv freshItem
    simp
  · intro o s1 s2 s3 it0 hinv hst
    have he0 := pending_error_none hinv hst
    have hall := pipelineStates o s1 s2 s3 it0 hst
    rw [he0] at hall
    exact ⟨fun x hx => stateOK_errInv (hall x (Or.inl hx)),
      stateOK_errInv (hall _ (Or.inr rfl))⟩

/-- Witness for C6 at concrete inputs: a fresh item and a fully processed
item both satisfy the error invariant. -/
theorem claim6_witness :
    errInv (freshItem "https://v" "id6" 3) ∧
    errInv (processSingleVideo oracleOK false false false
      (freshItem "https://v" "id6" 3)).item := by
  refine ⟨claim6_theorem.1 "https://v" "id6" 3, ?_⟩
  exact (claim6_theorem.2 oracleOK false false false (freshItem "https://v" "id6" 3)
    (by unfold errInv freshItem; simp) (by rfl)).2

/-- C7 (confirmed): for every `QueueItem` at every point reachable through
the public operations, `progress = 100` iff the status is `Completed`.
Freshly added items satisfy the invariant, and the per-item pipeline keeps
it at every notified state and at its final state for any pending item. -/
theorem claim7_theorem :
    (∀ (url newId : String) (now : Nat), progInv (freshItem url newId now)) ∧
    (∀ (o : StageResults) (s1 s2 s3 : Bool) (it0 : QueueItem),
      it0.status = VideoStatus.pending →
      (∀ x ∈ (processSingleVideo o s1 s2 s3 it0).trace, progInv x) ∧
      progInv (processSingleVideo o s1 s2 s3 it0).item) := by
  constructor
  · intro url newId now
    unfold progInv freshItem
    simp
  · intro o s1 s2 s3 it0 hst
    have hall := pipelineStates o s1 s2 s3 it0 hst
    exact ⟨fun x hx => stateOK_progInv (hall x (Or.inl hx)),
      stateOK_progInv (hall _ (Or.inr rfl))⟩

/-- Witness for C7 at concrete inputs: a fresh item and a fully processed
item (which ends `Completed` with progress 100) both satisfy the progress
invariant. -/
theorem claim7_witness :
    progInv (freshItem "https://w" "id7" 4) ∧
    progInv (processSingleVideo oracleOK false false false
      (freshItem "https://w" "id7" 4)).item := by
  refine ⟨claim7_theorem.1 "https://w" "id7" 4, ?_⟩
  exact (claim7_theorem.2 oracleOK false false false (freshItem "https://w" "id7" 4)
    (by rfl)).2

/-- C9 (confirmed): a stop-revert only rewrites `status` back to `Pending`;
every other field — progress, current_step, title, duration, error (and
url, id, added_at) — keeps the exact value it had when the stop flag was
observed.  One case per stop check: after stage 0, after the download,
and after the transcription. -/
theorem claim9_theorem (o : StageResults) (s1 s2 s3 : Bool) (it : QueueItem)
    (f txt : String) :
    (s1 = true →
      (processSingleVideo o s1 s2 s3 it).item =
        { stage0run o it with status := VideoStatus.pending }) ∧
    (s1 = false → s2 = true → o.download = Except.ok f →
      (processSingleVideo o s1 s2 s3 it).item =
        { doneDL f (startDL (stage0run o it)) with status := VideoStatus.pending }) ∧
    (s1 = false → s2 = false → s3 = true → o.download = Except.ok f →
      o.transcription = Except.ok txt →
      (processSingleVideo o s1 s2 s3 it).item =
        { doneTR (startTR (doneDL f (startDL (stage0run o it)))) with
            status := VideoStatus.pending }) := by
  refine ⟨?_, ?_, ?_⟩
  · intro h1
    subst h1
    simp [processSingleVideo]
  · intro h1 h2 hd
    subst h1; subst h2
    simp [processSingleVideo, hd]
  · intro h1 h2 h3 hd ht
    subst h1; subst h2; subst h3
    simp [processSingleVideo, hd, ht]

/-- Witness for C9: a run stopped after the transcription ends with the
transcription-complete state, status reverted to `Pending` and all other
fields untouched. -/
theorem claim9_witness :
    (processSingleVideo oracleOK false false true
      (freshItem "https://x" "id9" 7)).item =
      { doneTR (startTR (doneDL "clip.mp3" (startDL
          (stage0run oracleOK (freshItem "https://x" "id9" 7))))) with
          status := VideoStatus.pending } :=
  (claim9_theorem oracleOK false false true (freshItem "https://x" "id9" 7)
    "clip.mp3" "words").2.2 rfl rfl rfl rfl rfl

/-- The dispatch used to refute C4: stop reads at times 1, 2, 3, pipeline
finishes at 9, drained at 9. -/
def ex4 : ItemExec :=
  ⟨freshItem "https://c4" "id4" 0, oracleOK, 1, 2, 3, 9, 9⟩

/-- Counterexample to C4 as stated: the stop flag is NOT checked at every
stage boundary — there is no check before the persist stage.  Here
`stop()` runs at time 4: all three existing checks (times 1, 2, 3) read
`false`, so the flag is set strictly after the last check and before the
persist stage begins (which happens after time 3), yet the database write
is issued and the item completes. -/
theorem claim4_counterexample :
    stopped (some 4) ex4.t3 = false ∧
    stopped (some 4) 4 = true ∧
    (runItem (some 4) ex4).calls.save = true ∧
    (runItem (some 4) ex4).item.status = VideoStatus.completed := by
  refine ⟨rfl, rfl, ?_, ?_⟩ <;> rfl

/-- C4 (corrected): once one of the three existing stop checks — after
stage 0, after the download, after the transcription — observes the flag,
no further stage call is issued for that item and its status reverts to
`Pending`; but there is no check before the persist stage (see the
counterexample). -/
theorem claim4_theorem (o : StageResults) (s1 s2 s3 : Bool) (it : QueueItem)
    (f txt : String) :
    (s1 = true →
      (processSingleVideo o s1 s2 s3 it).calls.download = false ∧
      (processSingleVideo o s1 s2 s3 it).calls.transcribe = false ∧
      (processSingleVideo o s1 s2 s3 it).calls.summarize = false ∧
      (processSingleVideo o s1 s2 s3 it).calls.save = false ∧
      (processSingleVideo o s1 s2 s3 it).item.status = VideoStatus.pending) ∧
    (s1 = false → s2 = true → o.download = Except.ok f →
      (processSingleVideo o s1 s2 s3 it).calls.transcribe = false ∧
      (processSingleVideo o s1 s2 s3 it).calls.summarize = false ∧
      (processSingleVideo o s1 s2 s3 it).calls.save = false ∧
      (processSingleVideo o s1 s2 s3 it).item.status = VideoStatus.pending) ∧
    (s1 = false → s2 = false → s3 = true → o.download = Except.ok f →
      o.transcription = Except.ok txt →
      (processSingleVideo o s1 s2 s3 it).calls.summarize = false ∧
      (processSingleVideo o s1 s2 s3 it).calls.save = false ∧
      (processSingleVideo o s1 s2 s3 it).item.status = VideoStatus.pending) := by
  refine ⟨?_, ?_, ?_⟩
  · intro h1
    subst h1
    simp [processSingleVideo]
  · intro h1 h2 hd
    subst h1; subst h2
    simp [processSingleVideo, hd]
  · intro h1 h2 h3 hd ht
    subst h1; subst h2; subst h3
    simp [processSingleVideo, hd, ht]

/-- Witness for C4's amended statement at concrete inputs, one per stop
check. -/
theorem claim4_witness :
    (processSingleVideo oracleOK true false false
      (freshItem "https://y" "idw4" 0)).calls.save = false ∧
    (processSingleVideo oracleOK false true false
      (freshItem "https://y" "idw4" 0)).calls.save = false ∧
    (processSingleVideo oracleOK false false true
      (freshItem "https://y" "idw4" 0)).calls.save = false := by
  refine ⟨?_, ?_, ?_⟩
  · exact ((claim4_theorem oracleOK true false false (freshItem "https://y" "idw4" 0)
      "clip.mp3" "words").1 rfl).2.2.2.1
  · exact ((claim4_theorem oracleOK false true false (freshItem "https://y" "idw4" 0)
      "clip.mp3" "words").2.1 rfl rfl rfl).2.2.1
  · exact ((claim4_theorem oracleOK false false true (freshItem "https://y" "idw4" 0)
      "clip.mp3" "words").2.2 rfl rfl rfl rfl rfl).2.1

/-- C8 (confirmed): when any stage other than stage 0 raises, the
exception's message is recorded verbatim in `error`, the status becomes
`Failed`, the returned bool is `False`, and no later stage call is issued
— in particular the database write is never reached after a failure in
download, transcription or summarization, and a failing persist performs
no further work.  One case per fatal stage, each under the hypotheses
that make that stage the one that runs and raises. -/
theorem claim8_theorem (o : StageResults) (s1 s2 s3 : Bool) (it : QueueItem)
    (m f txt su : String) :
    (s1 = false → o.download = Except.error m →
      (processSingleVideo o s1 s2 s3 it).item.status = VideoStatus.failed ∧
      (processSingleVideo o s1 s2 s3 it).item.error = some m ∧
      (processSingleVideo o s1 s2 s3 it).calls.transcribe = false ∧
      (processSingleVideo o s1 s2 s3 it).calls.summarize = false ∧
      (processSingleVideo o s1 s2 s3 it).calls.save = false ∧
      (processSingleVideo o s1 s2 s3 it).success = false) ∧
    (s1 = false → s2 = false → o.download = Except.ok f →
      o.transcription = Except.error m →
      (processSingleVideo o s1 s2 s3 it).item.status = VideoStatus.failed ∧
      (processSingleVideo o s1 s2 s3 it).item.error = some m ∧
      (processSingleVideo o s1 s2 s3 it).calls.summarize = false ∧
      (processSingleVideo o s1 s2 s3 it).calls.save = false ∧
      (processSingleVideo o s1 s2 s3 it).success = false) ∧
    (s1 = false → s2 = false → s3 = false → o.download = Except.ok f →
      o.transcription = Except.ok txt → o.summary = Except.error m →
      (processSingleVideo o s1 s2 s3 it).item.status = VideoStatus.failed ∧
      (processSingleVideo o s1 s2 s3 it).item.error = some m ∧
      (processSingleVideo o s1 s2 s3 it).calls.save = false ∧
      (processSingleVideo o s1 s2 s3 it).success = false) ∧
    (s1 = false → s2 = false → s3 = false → o.download = Except.ok f →
      o.transcription = Except.ok txt → o.summary = Except.ok su →
      o.saveDb = Except.error m →
      (processSingleVideo o s1 s2 s3 it).item.status = VideoStatus.failed ∧
      (processSingleVideo o s1 s2 s3 it).item.error = some m ∧
      (processSingleVideo o s1 s2 s3 it).success = false) := by
  refine ⟨?_, ?_, ?_, ?_⟩
  · intro h1 hd
    subst h1
    simp [processSingleVideo, hd]
  · intro h1 h2 hd ht
    subst h1; subst h2
    simp [processSingleVideo, hd, ht]
  · intro h1 h2 h3 hd ht hm
    subst h1; subst h2; subst h3
    simp [processSingleVideo, hd, ht, hm]
  · intro h1 h2 h3 hd ht hm hp
    subst h1; subst h2; subst h3
    simp [processSingleVideo, hd, ht, hm, hp]

/-- Stage outcomes where the transcription raises "disk full" (the spec's
Scenario B shape). -/
def oracleTRfail : StageResults :=
  ⟨.ok vinfo0, .ok "clip.mp3", .error "disk full", .ok "gist", .ok ()⟩

/-- Stage outcomes where the download raises. -/
def oracleDLfail : StageResults :=
  ⟨.ok vinfo0, .error "dl boom", .ok "words", .ok "gist", .ok ()⟩

/-- Stage outcomes where the summary raises. -/
def oracleSUMfail : StageResults :=
  ⟨.ok vinfo0, .ok "clip.mp3", .ok "words", .error "sum boom", .ok ()⟩

/-- Stage outcomes where the database write raises. -/
def oracleDBfail : StageResults :=
  ⟨.ok vinfo0, .ok "clip.mp3", .ok "words", .ok "gist", .error "db boom"⟩

/-- Witness for C8 at concrete inputs, one per fatal stage. -/
theorem claim8_witness :
    ((processSingleVideo oracleDLfail false false false
        (freshItem "https://z" "idw8" 0)).item.error = some "dl boom" ∧
      (processSingleVideo oracleDLfail false false false
        (freshItem "https://z" "idw8" 0)).calls.save = false) ∧
    ((processSingleVideo oracleTRfail false false false
        (freshItem "https://z" "idw8" 0)).item.error = some "disk full" ∧
      (processSingleVideo oracleTRfail false false false
        (freshItem "https://z" "idw8" 0)).calls.save = false) ∧
    (processSingleVideo oracleSUMfail false false false
      (freshItem "https://z" "idw8" 0)).calls.save = false ∧
    (processSingleVideo oracleDBfail false false false
      (freshItem "https://z" "idw8" 0)).item.status = VideoStatus.failed := by
  refine ⟨⟨?_, ?_⟩, ⟨?_, ?_⟩, ?_, ?_⟩
  · exact ((claim8_theorem oracleDLfail false false false
      (freshItem "https://z" "idw8" 0) "dl boom" "clip.mp3" "words" "gist").1
      rfl rfl).2.1
  · exact ((claim8_theorem oracleDLfail false false false
      (freshItem "https://z" "idw8" 0) "dl boom" "clip.mp3" "words" "gist").1
      rfl rfl).2.2.2.2.1
  · exact ((claim8_theorem oracleTRfail false false false
      (freshItem "https://z" "idw8" 0) "disk full" "clip.mp3" "words" "gist").2.1
      rfl rfl rfl rfl).2.1
  · exact ((claim8_theorem oracleTRfail false false false
      (freshItem "https://z" "idw8" 0) "disk full" "clip.mp3" "words" "gist").2.1
      rfl rfl rfl rfl).2.2.2.1
  · exact ((claim8_theorem oracleSUMfail false false false
      (freshItem "https://z" "idw8" 0) "sum boom" "clip.mp3" "words" "gist").2.2.1
      rfl rfl rfl rfl rfl rfl).2.2.1
  · exact ((claim8_theorem oracleDBfail false false false
      (freshItem "https://z" "idw8" 0) "db boom" "clip.mp3" "words" "gist").2.2.2
      rfl rfl rfl rfl rfl rfl rfl).1

/-- C10 (confirmed): `VideoQueue.add(url)` — for every url, the empty one
included — appends exactly one new item and returns it, with status
`Pending`, progress 0, step "Waiting in queue...", no error, title `""`
and duration `0`; title and duration are the plain values `""` and `0`
(never null) both on the item and in its `to_dict` serialization, and the
queue's other fields are untouched. -/
theorem claim10_theorem (q : VideoQueue) (url newId : String) (now : Nat) :
    (VideoQueue.add q url newId now).1.items =
      q.items ++ [(VideoQueue.add q url newId now).2] ∧
    (VideoQueue.add q url newId now).1.is_processing = q.is_processing ∧
    (VideoQueue.add q url newId now).1.active_workers = q.active_workers ∧
    (VideoQueue.add q url newId now).2.url = url ∧
    (VideoQueue.add q url newId now).2.status = VideoStatus.pending ∧
    (VideoQueue.add q url newId now).2.progress = 0 ∧
    (VideoQueue.add q url newId now).2.current_step = "Waiting in queue..." ∧
    (VideoQueue.add q url newId now).2.error = none ∧
    (VideoQueue.add q url newId now).2.title = "" ∧
    (VideoQueue.add q url newId now).2.duration = 0 ∧
    (VideoQueue.add q url newId now).2.toDict.title = "" ∧
    (VideoQueue.add q url newId now).2.toDict.duration = 0 ∧
    (VideoQueue.add q url newId now).2.toDict.error = none :=
  ⟨rfl, rfl, rfl, rfl, rfl, rfl, rfl, rfl, rfl, rfl, rfl, rfl, rfl⟩

/-- The dispatch used for C1: stop reads at 1, 2, 3, finish at 4, drain
at 5; with `stop()` at time 0 the very first check reads `true`. -/
def ex1 : ItemExec :=
  ⟨freshItem "https://c1" "id1" 0, oracleOK, 1, 2, 3, 4, 5⟩

/-- Counterexample to C1 as stated: with `stop()` at time 0, the single
dispatched item observes the flag and reverts to `Pending` — one item is
reverted due to stop — yet the returned tally reports `skipped = 0`:
`skipped` does not equal the number of items reverted to Pending. -/
theorem claim1_counterexample :
    (([ex1].filter (fun e => (runItem (some 0) e).revertedAt.isSome)).length = 1) ∧
    (runParallel (some 0) [ex1]).tally.skipped = 0 := by
  exact ⟨rfl, rfl⟩

/-- C1 (corrected): an item observing the stop flag before a stage does
revert to `Pending`, returns "not completed" and is never drained and
tallied — so it is counted neither as failed nor as completed — but the
returned tally always reports `skipped = 0` (the field is hard-coded;
reverted items are simply missing from all counts). -/
theorem claim1_theorem (st : Option Nat) (execs : List ItemExec)
    (hwf : ∀ e ∈ execs, execWF e) :
    (∀ e ∈ execs, (runItem st e).revertedAt.isSome = true →
      (runItem st e).item.status = VideoStatus.pending ∧
      (runItem st e).success = false ∧
      e ∉ (runParallel st execs).tallied) ∧
    (runParallel st execs).tally.skipped = 0 := by
  constructor
  · intro e he hrev
    have hp : (runItem st e).item.status = VideoStatus.pending := by
      simpa [runItem] using
        reverted_pending e.orc (stopped st e.t1) (stopped st e.t2)
          (stopped st e.t3) e.it (by simpa [runItem] using hrev)
    have hs : (runItem st e).success = false := by
      simpa [runItem] using
        reverted_not_success e.orc (stopped st e.t1) (stopped st e.t2)
          (stopped st e.t3) e.it (by simpa [runItem] using hrev)
    refine ⟨hp, hs, ?_⟩
    cases execs with
    | nil => simp at he
    | cons a l =>
        simpa [runParallel] using
          reverted_not_tallied st (a :: l) e (hwf e he) hrev
  · cases execs with
    | nil => rfl
    | cons a l => rfl

/-- Witness for C1's amended statement: the reverted item of the
counterexample run ends `Pending`, is not tallied, and the tally's
`skipped` is 0. -/
theorem claim1_witness :
    (runItem (some 0) ex1).item.status = VideoStatus.pending ∧
    (runItem (some 0) ex1).success = false ∧
    ex1 ∉ (runParallel (some 0) [ex1]).tallied ∧
    (runParallel (some 0) [ex1]).tally.skipped = 0 := by
  have h := claim1_theorem (some 0) [ex1]
    (by intro e he; rw [List.mem_singleton] at he; subst he; decide)
  obtain ⟨h1, h2, h3⟩ := h.1 ex1 (List.mem_singleton_self _) (by decide)
  exact ⟨h1, h2, h3, h.2⟩

/-- Splitting the tallied futures by the bool their pipeline returned. -/
theorem tallied_split (st : Option Nat) (l : List ItemExec) :
    (l.filter (fun x => (runItem st x).success)).length +
      (l.filter (fun x => !(runItem st x).success)).length = l.length := by
  induction l with
  | nil => rfl
  | cons a t ih =>
      cases h : (runItem st a).success <;> simp [h] <;> omega

/-- The dispatch used for C2: same timing as C1's. -/
def ex2 : ItemExec :=
  ⟨freshItem "https://c2" "id2" 0, oracleOK, 1, 2, 3, 4, 5⟩

/-- Counterexample to C2 as stated: with `stop()` at time 0 and one
pending item, the item reverts and the coordinator breaks before tallying
it, so the returned tally is `{completed 0, failed 0, skipped 0, total 1}`
and `completed + failed + skipped ≠ total`. -/
theorem claim2_counterexample :
    (runParallel (some 0) [ex2]).tally = ⟨0, 0, 0, 1⟩ ∧
    ¬((runParallel (some 0) [ex2]).tally.completed +
        (runParallel (some 0) [ex2]).tally.failed +
        (runParallel (some 0) [ex2]).tally.skipped =
      (runParallel (some 0) [ex2]).tally.total) := by
  exact ⟨rfl, by decide⟩

/-- C2 (corrected): on a non-empty pending snapshot the identity
`completed + failed + skipped = total` holds whenever `stop()` is never
called during the run; in general (stop possibly requested) only
`completed + failed + skipped ≤ total` holds, because the drain loop
breaks on stop and the undrained futures are missing from every count. -/
theorem claim2_theorem (execs : List ItemExec) (hne : execs ≠ []) :
    ((runParallel none execs).tally.completed +
        (runParallel none execs).tally.failed +
        (runParallel none execs).tally.skipped =
      (runParallel none execs).tally.total) ∧
    ∀ st : Option Nat,
      (runParallel st execs).tally.completed +
        (runParallel st execs).tally.failed +
        (runParallel st execs).tally.skipped ≤
      (runParallel st execs).tally.total := by
  constructor
  · cases execs with
    | nil => exact absurd rfl hne
    | cons a l =>
        have htl : drainTallied none (a :: l) = a :: l := drainTallied_none _
        have hsplit := tallied_split none (a :: l)
        simp only [runParallel, htl]
        omega
  · intro st
    cases execs with
    | nil => simp [runParallel]
    | cons a l =>
        have hsplit := tallied_split st (drainTallied st (a :: l))
        have hlen := drainTallied_length_le st (a :: l)
        simp only [runParallel]
        omega

/-- Witness for C2's amended statement on a concrete stop-free run. -/
theorem claim2_witness :
    (runParallel none [ex2]).tally.completed +
      (runParallel none [ex2]).tally.failed +
      (runParallel none [ex2]).tally.skipped =
    (runParallel none [ex2]).tally.total :=
  (claim2_theorem [ex2] (by simp)).1

/-- Counterexample to C3 as stated: called on an empty pending snapshot,
the code does return the all-zero tally, but line 75 of `processor.py`
sets `queue.is_processing = True` before the emptiness check, so the flag
IS set to true during the call (and reset to false before returning):
`true` occurs in the sequence of writes to `is_processing`. -/
theorem claim3_counterexample :
    (runParallel none []).tally = ⟨0, 0, 0, 0⟩ ∧
    true ∈ (runParallel none []).isProcTrace := by
  exact ⟨rfl, by decide⟩

/-- C3 (corrected): on an empty pending snapshot the call returns the
tally `{0, 0, 0, 0}` immediately and never touches `active_workers`, but
`is_processing` is transiently set to `true` at the start of the call and
reset to `false` before returning (its write sequence is exactly
`[true, false]`), rather than never being set. -/
theorem claim3_theorem (st : Option Nat) :
    (runParallel st []).tally = ⟨0, 0, 0, 0⟩ ∧
    (runParallel st []).isProcTrace = [true, false] ∧
    (runParallel st []).awTrace = [] ∧
    (runParallel st []).tallied = [] :=
  ⟨rfl, rfl, rfl, rfl⟩

/-- The dispatch used for C5: one item, finishing at time 4, drained at
time 5, never stopped. -/
def ex5 : ItemExec :=
  ⟨freshItem "https://c5" "id5" 0, oracleOK, 1, 2, 3, 4, 5⟩

/-- Counterexample to C5 as stated: `active_workers` does NOT equal the
number of in-flight pipelines at every instant.  In a one-item run the
recorded observations are `[⟨true,1,1⟩, ⟨false,1,0⟩, ⟨true,0,0⟩,
⟨true,0,0⟩]`: at the instant the single pipeline finishes (second entry)
the in-flight count is 0 while `active_workers` still holds the stale
value 1 — the field is only recomputed after the coordinator drains the
completion. -/
theorem claim5_counterexample :
    (runParallel none [ex5]).awTrace =
      [⟨true, 1, 1⟩, ⟨false, 1, 0⟩, ⟨true, 0, 0⟩, ⟨true, 0, 0⟩] ∧
    ((runParallel none [ex5]).awTrace.all (fun en => en.aw == en.flight)) = false := by
  exact ⟨rfl, by decide⟩

/-- C5 (corrected): `active_workers` equals the number of in-flight
pipelines at the instants the coordinator writes it — right after
submitting all futures (before any completes), after draining each
completion, and at run end, where it is reset to 0 — and both the value
and the in-flight count never exceed the snapshot size; between a pipeline
finishing and the next coordinator write the stored value is stale (see
the counterexample). -/
theorem claim5_theorem (st : Option Nat) (execs : List ItemExec)
    (hwf : ∀ e ∈ execs, execWF e) :
    ∀ en ∈ (runParallel st execs).awTrace,
      (en.upd = true → en.aw = en.flight) ∧
      en.aw ≤ execs.length ∧ en.flight ≤ execs.length := by
  cases execs with
  | nil => intro en hen; simp [runParallel] at hen
  | cons a l =>
      intro en hen
      simp only [runParallel, List.mem_cons, List.mem_append] at hen
      rcases hen with rfl | hen | hen
      · refine ⟨fun _ => ?_, ?_, ?_⟩
        · show (a :: l).length = (a :: l).length - finishedBy (a :: l) 0
          rw [finishedBy_zero _ hwf, Nat.sub_zero]
        · exact le_refl _
        · exact Nat.sub_le _ _
      · exact awEvents_ok st (a :: l) (a :: l).length rfl (a :: l)
          (a :: l).length (le_refl _) en hen
      · rcases hen with rfl | hen
        · exact ⟨fun _ => rfl, Nat.zero_le _, Nat.zero_le _⟩
        · simp at hen

/-- Witness for C5's amended statement: in the concrete one-item run, the
first recorded observation is a coordinator write and satisfies
`aw = flight`. -/
theorem claim5_witness :
    (⟨true, 1, 1⟩ : AwEntry) ∈ (runParallel none [ex5]).awTrace ∧
    (⟨true, 1, 1⟩ : AwEntry).aw = (⟨true, 1, 1⟩ : AwEntry).flight := by
  refine ⟨by decide, ?_⟩
  exact (claim5_theorem none [ex5]
    (by intro e he; rw [List.mem_singleton] at he; subst he; decide)
    ⟨true, 1, 1⟩ (by decide)).1 rfl
